import Mathlib

/-!
Shallow embedding of the Spotify Wrapped insights pipeline
(`src/data_processor.py` and `src/analyzer.py`) together with proofs of the
specification's claims about it.

Strings are modelled as `List Char`; Python's `str.lower` becomes a per-char
`Char.toLower` map and Python's `sorted` on strings becomes `List.insertionSort`
over the lexicographic order on `List Char`.  The MD5 digest used by
`create_song_id` is library code, not repository code, so it is modelled as an
arbitrary function parameter `hash : List Char → List Char`; every claim is
proved for all choices of `hash` (MD5 being one deterministic instance).
-/

namespace Wrapped

/-- Python `str.lower()` on our string model. -/
def pyLower (s : List Char) : List Char := s.map Char.toLower

/-- Python `sorted(...)` over strings: lexicographic (code-point) order. -/
def pySorted (l : List (List Char)) : List (List Char) :=
  List.insertionSort (· ≤ ·) l

/-- Python `" ".join(...)`. -/
def joinSpace (l : List (List Char)) : List Char :=
  List.intercalate [' '] l

/-- The string hashed by `DataProcessor.create_song_id`:
`f"{name} {artists}"` where `name = str(row['name']).lower()` and
`artists = " ".join(sorted([str(a).lower() for a in row['artists']]))`. -/
def combined (name : List Char) (artists : List (List Char)) : List Char :=
  pyLower name ++ [' '] ++ joinSpace (pySorted (artists.map pyLower))

/-- `DataProcessor.create_song_id` on well-formed input: the hex digest of the
normalized combined string, for an arbitrary digest function `hash`. -/
def create_song_id (hash : List Char → List Char)
    (name : List Char) (artists : List (List Char)) : List Char :=
  hash (combined name artists)

/-- Sorting two permuted lists with the lexicographic order yields the same
list. -/
theorem pySorted_eq_of_perm {l₁ l₂ : List (List Char)} (h : l₁.Perm l₂) :
    pySorted l₁ = pySorted l₂ :=
  List.eq_of_perm_of_sorted
    ((List.perm_insertionSort _ l₁).trans
      (h.trans (List.perm_insertionSort _ l₂).symm))
    (List.sorted_insertionSort _ l₁)
    (List.sorted_insertionSort _ l₂)

/-- C1: For every name and every non-empty list of artist names, the identity
key computed by `create_song_id` is invariant under any permutation of the
artist list and under any change of letter case in the name or in any artist
name: all such variants hash to the same hex digest.  (Case/permutation
variance of the inputs is captured by the hypotheses: the lowercased artist
lists are permutations of one another and the lowercased names agree.) -/
theorem create_song_id_perm_case_invariant
    (hash : List Char → List Char)
    (name name' : List Char) (artists artists' : List (List Char))
    (_hne : artists ≠ [])
    (hperm : (artists'.map pyLower).Perm (artists.map pyLower))
    (hname : pyLower name' = pyLower name) :
    create_song_id hash name' artists' = create_song_id hash name artists := by
  unfold create_song_id combined
  rw [hname, pySorted_eq_of_perm hperm]

/-- Witness for C1 at a concrete input: `("Hello", ["Adele", "BTS"])` versus
`("hello", ["bts", "adele"])` produce the same identity key. -/
theorem create_song_id_perm_case_invariant_witness :
    (["Adele".data, "BTS".data] : List (List Char)) ≠ [] ∧
      create_song_id (fun s => s) "Hello".data ["bts".data, "adele".data] =
        create_song_id (fun s => s) "hello".data ["Adele".data, "BTS".data] :=
  ⟨by decide,
    create_song_id_perm_case_invariant (fun s => s) "hello".data "Hello".data
      ["Adele".data, "BTS".data] ["bts".data, "adele".data]
      (by decide) (by decide) (by decide)⟩

/-!
## Matrix builder (`DataProcessor.preprocess`)

A raw CSV row (columns `year, index, name, artists, id, link`).  `name = none`
models a row on which `row["name"]` raises KeyError (label absent — a NaN
*value* raises nothing, `str(nan)` is just the string `"nan"`), and
`artists = none` models a row on which iterating `row["artists"]` raises
TypeError (value not a list).  The two failures end differently: the except
handler of `create_song_id` logs with the f-string
`f"Failed to create song_id for {row['name']}: {e}"`, which *re-reads*
`row["name"]` — on a missing name the handler itself re-raises the KeyError,
which escapes `create_song_id` and crashes the whole `preprocess` call
(`rowSongIdTry`/`preprocessTry` below); only the unreadable-artists failure is
actually caught, logged, and converted to `None` (row dropped).  An *empty*
artist list raises nothing at all: `" ".join(sorted([]))` is just `""`.
-/

structure RawRecord where
  year : Nat
  index : Nat
  name : Option (List Char)
  artists : Option (List (List Char))
  id : List Char
deriving DecidableEq

/-- The song-id column value of a row, as seen by the rest of `preprocess`
(total companion of `rowSongIdTry`): `none` stands for the `None` that
`dropna` removes.  On rows with a readable name this is exactly
`rowSongIdTry`; the `name = none` case is given the value `none` only for
totality — in the source that row makes the whole call crash, which
`preprocessTry` accounts for. -/
def rowSongId (hash : List Char → List Char) (r : RawRecord) :
    Option (List Char) :=
  match r.name, r.artists with
  | some n, some arts => some (create_song_id hash n arts)
  | _, _ => none

/-- The rows surviving `df.dropna(subset=["song_id"])`. -/
def validRows (hash : List Char → List Char) (l : List RawRecord) :
    List RawRecord :=
  l.filter (fun r => (rowSongId hash r).isSome)

/-- `sorted(df["year"].unique().tolist())`, computed on the *full* input
(before invalid rows are dropped). -/
def yearsOf (l : List RawRecord) : List Nat :=
  List.insertionSort (· ≤ ·) (l.map (·.year)).dedup

/-- One cell of `pivot_table(index="song_id", columns="year", values="index",
fill_value=0)` followed by `.astype(int)`: the mean of the `index` values of
the song's rows in that year (truncated to an integer), `0` when the song has
no row in that year. -/
def pivotRank (hash : List Char → List Char) (l : List RawRecord)
    (sid : List Char) (y : Nat) : Nat :=
  let vs := ((validRows hash l).filter
    (fun r => decide (rowSongId hash r = some sid ∧ r.year = y))).map (·.index)
  if vs.length = 0 then 0 else vs.sum / vs.length

/-- The pivot table's row keys: the distinct song ids, in ascending order
(`pivot_table` sorts its index). -/
def songIds (hash : List Char → List Char) (l : List RawRecord) :
    List (List Char) :=
  List.insertionSort (· ≤ ·) ((validRows hash l).filterMap (rowSongId hash)).dedup

/-- The metadata representative chosen by
`df.drop_duplicates(subset="song_id")` + left merge: the *first* valid row
(in original input order) carrying the song id. -/
def repFor (hash : List Char → List Char) (l : List RawRecord)
    (sid : List Char) : RawRecord :=
  (((validRows hash l).filter
    (fun r => decide (rowSongId hash r = some sid)))).headD ⟨0, 0, none, none, []⟩

/-- One row of the processed matrix: columns
`name, artists, song_id, id, list_appearances, score` plus one rank per year
(`ranks` lists the year columns in the matrix's year order). -/
structure SongRow where
  name : List Char
  artists : List (List Char)
  song_id : List Char
  id : List Char
  list_appearances : Nat
  score : Int
  ranks : List (Nat × Nat)
deriving DecidableEq

/-- Builds the processed row of one song id: metadata from the representative
row, `list_appearances = (row > 0).sum()` over the year columns, and
`score = ((100 - ranks.replace(0, NA) + 1).fillna(0)).sum()`. -/
def mkRow (hash : List Char → List Char) (l : List RawRecord)
    (sid : List Char) : SongRow :=
  let years := yearsOf l
  let rk := pivotRank hash l sid
  let rep := repFor hash l sid
  { name := rep.name.getD []
    artists := rep.artists.getD []
    song_id := sid
    id := rep.id
    list_appearances := (years.map rk).countP (fun v => decide (0 < v))
    score := (years.map (fun y =>
      if rk y = 0 then (0 : Int) else 100 - (rk y : Int) + 1)).sum
    ranks := years.map (fun y => (y, rk y)) }

/-- `DataProcessor.preprocess`: empty input is returned unchanged; otherwise
one `SongRow` per distinct song id. -/
def preprocess (hash : List Char → List Char) (l : List RawRecord) :
    List SongRow :=
  if l = [] then [] else (songIds hash l).map (mkRow hash l)

/-- The score column's row formula agrees with the specification's
`sum over present years of (101 - rank)`. -/
theorem score_sum_eq (rk : Nat → Nat) (years : List Nat) :
    (years.map (fun y =>
      if rk y = 0 then (0 : Int) else 100 - (rk y : Int) + 1)).sum
    = (((years.map (fun y => (y, rk y))).filter
        (fun p => decide (0 < p.2))).map (fun p => (101 : Int) - (p.2 : Int))).sum := by
  induction years with
  | nil => rfl
  | cons y ys ih =>
    simp only [List.map_cons, List.sum_cons, List.filter_cons]
    by_cases h : rk y = 0
    · simp [h, ih]
    · have h0 : 0 < rk y := Nat.pos_of_ne_zero h
      simp [h, decide_eq_true h0, ih]
      omega

/-- C2: For every SongRow produced by `preprocess`, `score` equals the sum over
the years in which the song is present (rank > 0) of `(101 - rank)`, with
absent years contributing 0. -/
theorem preprocess_score_formula (hash : List Char → List Char)
    (l : List RawRecord) (row : SongRow) (h : row ∈ preprocess hash l) :
    row.score = ((row.ranks.filter (fun p => decide (0 < p.2))).map
      (fun p => (101 : Int) - (p.2 : Int))).sum := by
  unfold preprocess at h
  split at h
  · simp at h
  · rw [List.mem_map] at h
    obtain ⟨sid, _, rfl⟩ := h
    exact score_sum_eq (pivotRank hash l sid) (yearsOf l)

/-- Witness for C2: a single record at rank 1 in 2018 yields a row with
score 100, matching the formula. -/
theorem preprocess_score_formula_witness :
    ((⟨"a".data, ["x".data], "a x".data, "id2".data, 1, 100, [(2018, 1)]⟩ :
        SongRow) ∈
      preprocess (fun s => s)
        [⟨2018, 1, some "a".data, some ["x".data], "id2".data⟩]) ∧
    (⟨"a".data, ["x".data], "a x".data, "id2".data, 1, 100, [(2018, 1)]⟩ :
        SongRow).score =
      (((⟨"a".data, ["x".data], "a x".data, "id2".data, 1, 100, [(2018, 1)]⟩ :
          SongRow).ranks.filter (fun p => decide (0 < p.2))).map
        (fun p => (101 : Int) - (p.2 : Int))).sum :=
  ⟨by decide,
    preprocess_score_formula (fun s => s)
      [⟨2018, 1, some "a".data, some ["x".data], "id2".data⟩] _ (by decide)⟩

/-- Counting positives over a row's year columns equals the number of
nonzero entries of its ranks list. -/
theorem countP_pos_eq_filter_length (rk : Nat → Nat) (years : List Nat) :
    (years.map rk).countP (fun v => decide (0 < v))
    = ((years.map (fun y => (y, rk y))).filter
        (fun p => decide (0 < p.2))).length := by
  induction years with
  | nil => rfl
  | cons y ys ih =>
    simp only [List.map_cons, List.countP_cons, List.filter_cons]
    by_cases h : 0 < rk y
    · simp [h, ih]
    · simp [h, ih]

/-- C3: For every SongRow produced by `preprocess`, `list_appearances` equals
the number of years whose rank entry is nonzero, over the full year set of
the matrix. -/
theorem preprocess_list_appearances (hash : List Char → List Char)
    (l : List RawRecord) (row : SongRow) (h : row ∈ preprocess hash l) :
    row.list_appearances =
      (row.ranks.filter (fun p => decide (0 < p.2))).length := by
  unfold preprocess at h
  split at h
  · simp at h
  · rw [List.mem_map] at h
    obtain ⟨sid, _, rfl⟩ := h
    exact countP_pos_eq_filter_length (pivotRank hash l sid) (yearsOf l)

/-- Witness for C3 at the same concrete input: `list_appearances = 1` equals
the count of nonzero rank entries. -/
theorem preprocess_list_appearances_witness :
    ((⟨"a".data, ["x".data], "a x".data, "id2".data, 1, 100, [(2018, 1)]⟩ :
        SongRow) ∈
      preprocess (fun s => s)
        [⟨2018, 1, some "a".data, some ["x".data], "id2".data⟩]) ∧
    (⟨"a".data, ["x".data], "a x".data, "id2".data, 1, 100, [(2018, 1)]⟩ :
        SongRow).list_appearances =
      ((⟨"a".data, ["x".data], "a x".data, "id2".data, 1, 100, [(2018, 1)]⟩ :
          SongRow).ranks.filter (fun p => decide (0 < p.2))).length :=
  ⟨by decide,
    preprocess_list_appearances (fun s => s)
      [⟨2018, 1, some "a".data, some ["x".data], "id2".data⟩] _ (by decide)⟩

/-- Descending comparison by a `Nat`-valued key (the relation under which
`sort_values(..., ascending=False)` sorts). -/
def descBy (key : α → Nat) (a b : α) : Prop := key b ≤ key a

instance (key : α → Nat) : IsTotal α (descBy key) :=
  ⟨fun a b => (Nat.le_total (key b) (key a)).elim Or.inl Or.inr⟩

instance (key : α → Nat) : IsTrans α (descBy key) :=
  ⟨fun _ _ _ hab hbc => Nat.le_trans hbc hab⟩

instance (key : α → Nat) : DecidableRel (descBy key) :=
  fun _ _ => Nat.decLe _ _

/-- `pd.DataFrame(recs).sort_values(col, ascending=False)`: raises
`KeyError(col)` when `recs` is empty (the empty frame has no columns),
otherwise sorts descending by the column. -/
def sortDescOr (col : String) (key : α → Nat) (l : List α) :
    Except String (List α) :=
  if l.isEmpty then Except.error ("KeyError: " ++ col)
  else Except.ok (List.insertionSort (descBy key) l)

/-- The analyzer state: `self.years` (sorted) and `self.df`. -/
structure Analyzer where
  years : List Nat
  songs : List SongRow
deriving DecidableEq

/-- `WrappedAnalyzer.__init__`: rejects an empty DataFrame, collects and sorts
the integer columns (`intCols`), and rejects a matrix without year columns. -/
def analyzerInit (df : List SongRow) (intCols : List Nat) :
    Except String Analyzer :=
  if df.isEmpty then Except.error "DataFrame cannot be empty"
  else
    let ys := List.insertionSort (· ≤ ·) intCols
    if ys.isEmpty then
      Except.error "DataFrame must contain year columns (integers)"
    else Except.ok ⟨ys, df⟩

/-- `row[year]`: the rank of a song in a year (0 = absent). -/
def rankIn (s : SongRow) (y : Nat) : Nat := (s.ranks.lookup y).getD 0

/-- The consecutive year pairs `(years[i], years[i+1])`. -/
def yearPairs (years : List Nat) : List (Nat × Nat) := years.zip years.tail

/-- Output row of `one_year_dream_runs`. -/
structure DreamRec where
  name : List Char
  artists : List (List Char)
  song_id : List Char
  list_appearances : Nat
  score : Int
  dream_year : Nat
  rank_in_dream_year : Nat
deriving DecidableEq

/-- The record appended by `one_year_dream_runs` for song `s` at a qualifying
pair: `dream_year` is the present year, paired here with its rank. -/
def mkDreamRec (s : SongRow) (p : Nat × Nat) : DreamRec :=
  ⟨s.name, s.artists, s.song_id, s.list_appearances, s.score, p.1, p.2⟩

/-- `x.between(1, 10).any()` over the year columns. -/
def top10Mask (years : List Nat) (s : SongRow) : Bool :=
  years.any (fun y => decide (1 ≤ rankIn s y) && decide (rankIn s y ≤ 10))

/-- The inner scan of `one_year_dream_runs`: first pair with rank in `[1, 10]`
now and 0 next year; `break` after the first hit. -/
def dreamScan (s : SongRow) : List (Nat × Nat) → Option (Nat × Nat)
  | [] => none
  | p :: rest =>
    if 1 ≤ rankIn s p.1 ∧ rankIn s p.1 ≤ 10 ∧ rankIn s p.2 = 0 then
      some (p.1, rankIn s p.1)
    else dreamScan s rest

/-- `WrappedAnalyzer.one_year_dream_runs`. -/
def oneYearDreamRuns (a : Analyzer) : Except String (List DreamRec) :=
  let cand := a.songs.filter (top10Mask a.years)
  let recs := cand.filterMap
    (fun s => (dreamScan s (yearPairs a.years)).map (mkDreamRec s))
  sortDescOr "dream_year" DreamRec.dream_year recs

/-- Output row of `on_the_up`. -/
structure UpRec where
  name : List Char
  artists : List (List Char)
  song_id : List Char
  list_appearances : Nat
  score : Int
  recovery_type : String
  recovery_year : Nat
  previous_rank : Nat
  new_rank : Nat
deriving DecidableEq

/-- `curr_rank > 0 and next_rank == 0`: a present-then-absent transition. -/
def transAt (s : SongRow) (p : Nat × Nat) : Bool :=
  decide (0 < rankIn s p.1) && decide (rankIn s p.2 = 0)

/-- The record appended by `on_the_up` at pair `p` with sticky flag `off`. -/
def mkUpRec (s : SongRow) (off : Bool) (p : Nat × Nat) : UpRec :=
  ⟨s.name, s.artists, s.song_id, s.list_appearances, s.score,
    if off then "returned" else "climbed", p.2, rankIn s p.1, rankIn s p.2⟩

/-- The inner scan of `on_the_up`: the `off_list` flag is updated at each pair
before the emit check, and the loop `break`s at the first emit. -/
def upScan (s : SongRow) : Bool → List (Nat × Nat) → Option UpRec
  | _, [] => none
  | off, p :: rest =>
    let off2 := off || transAt s p
    if 0 < rankIn s p.2 ∧ (rankIn s p.2 < rankIn s p.1 ∨ off2 = true) then
      some (mkUpRec s off2 p)
    else upScan s off2 rest

/-- `WrappedAnalyzer.on_the_up`. -/
def onTheUp (a : Analyzer) : Except String (List UpRec) :=
  let multi := a.songs.filter (fun s => decide (2 ≤ s.list_appearances))
  let recs := multi.filterMap (fun s => upScan s false (yearPairs a.years))
  sortDescOr "recovery_year" UpRec.recovery_year recs

/-- Output row of `active_streaks`. -/
structure StreakRec where
  name : List Char
  artists : List (List Char)
  song_id : List Char
  list_appearances : Nat
  score : Int
  streak_length : Nat
  streak_start_year : Nat
deriving DecidableEq

/-- The backward count of `active_streaks`: iterate `reversed(self.years)`,
count while the rank is positive, `break` at the first absence. -/
def streakLen (years : List Nat) (s : SongRow) : Nat :=
  (years.reverse.takeWhile (fun y => decide (0 < rankIn s y))).length

/-- `WrappedAnalyzer.active_streaks(min_consecutive)`. -/
def activeStreaks (minc : Nat) (a : Analyzer) :
    Except String (List StreakRec) :=
  let recs := a.songs.filterMap (fun s =>
    if rankIn s (a.years.getLastD 0) = 0 then none
    else
      let len := streakLen a.years s
      if minc ≤ len then
        some ⟨s.name, s.artists, s.song_id, s.list_appearances, s.score, len,
          a.years.getD (a.years.length - len) 0⟩
      else none)
  sortDescOr "streak_length" StreakRec.streak_length recs

/-- Spec scenario Song A: rank 3 in 2018, absent after. -/
def songA : SongRow :=
  ⟨"aa".data, ["p".data], "sa".data, "ia".data, 1, 98,
    [(2018, 3), (2019, 0), (2020, 0)]⟩

/-- Spec scenario Song B: rank 50 in 2018, absent in 2019, rank 20 in 2020. -/
def songB : SongRow :=
  ⟨"bb".data, ["q".data], "sb".data, "ib".data, 2, 132,
    [(2018, 50), (2019, 0), (2020, 20)]⟩

/-- Spec scenario Song C: rank 5 in each of 2018, 2019, 2020. -/
def songC : SongRow :=
  ⟨"cc".data, ["r".data], "sc".data, "ic".data, 3, 288,
    [(2018, 5), (2019, 5), (2020, 5)]⟩

/-- A song (ranks 10 then 20) qualifying for none of the three analyses. -/
def songD : SongRow :=
  ⟨"dd".data, ["y".data], "sd".data, "idd".data, 2, 172,
    [(2018, 10), (2019, 20)]⟩

/-- C10: on a non-empty two-year matrix in which no song qualifies for any of
the three analyses, each analysis raises (`KeyError` from sorting an empty
frame by a column it does not have) instead of returning an empty table. -/
theorem analyses_raise_on_no_qualifiers :
    analyzerInit [songD] [2018, 2019] = Except.ok ⟨[2018, 2019], [songD]⟩ ∧
    oneYearDreamRuns ⟨[2018, 2019], [songD]⟩ =
      Except.error "KeyError: dream_year" ∧
    onTheUp ⟨[2018, 2019], [songD]⟩ =
      Except.error "KeyError: recovery_year" ∧
    activeStreaks 3 ⟨[2018, 2019], [songD]⟩ =
      Except.error "KeyError: streak_length" :=
  ⟨rfl, rfl, rfl, rfl⟩

/-- C9: an analyzer built on an empty matrix fails at construction, and on any
single-year matrix each streak/runs analysis surfaces a raised error rather
than silently returning a result. -/
theorem analyzer_preconditions (df : List SongRow) (cols : List Nat) :
    (df = [] → analyzerInit df cols = Except.error "DataFrame cannot be empty") ∧
    (∀ y : Nat, ∀ a : Analyzer, analyzerInit df [y] = Except.ok a →
      oneYearDreamRuns a = Except.error "KeyError: dream_year" ∧
      onTheUp a = Except.error "KeyError: recovery_year" ∧
      activeStreaks 3 a = Except.error "KeyError: streak_length") := by
  constructor
  · intro h
    subst h
    rfl
  · intro y a ha
    by_cases hdf : df.isEmpty = true
    · rw [analyzerInit, if_pos hdf] at ha
      cases ha
    · rw [analyzerInit, if_neg hdf] at ha
      simp only [List.insertionSort] at ha
      rw [if_neg (by simp)] at ha
      obtain rfl : Analyzer.mk (List.orderedInsert (· ≤ ·) y []) df = a := by
        cases ha
        rfl
      refine ⟨?_, ?_, ?_⟩
      · have h1 : (df.filter (top10Mask [y])).filterMap
            (fun s => (dreamScan s (yearPairs [y])).map (mkDreamRec s)) = [] := by
          simp [yearPairs, dreamScan]
        simp only [oneYearDreamRuns, List.orderedInsert]
        rw [h1]
        rfl
      · have h1 : (df.filter (fun s => decide (2 ≤ s.list_appearances))).filterMap
            (fun s => upScan s false (yearPairs [y])) = [] := by
          simp [yearPairs, upScan]
        simp only [onTheUp, List.orderedInsert]
        rw [h1]
        rfl
      · have h1 : df.filterMap (fun s =>
            if rankIn s (([y] : List Nat).getLastD 0) = 0 then none
            else
              let len := streakLen [y] s
              if 3 ≤ len then
                some (⟨s.name, s.artists, s.song_id, s.list_appearances, s.score,
                  len, ([y] : List Nat).getD (([y] : List Nat).length - len) 0⟩ :
                    StreakRec)
              else none) = [] := by
          rw [List.filterMap_eq_nil_iff]
          intro s _
          by_cases hr : rankIn s y = 0
          · simp [hr]
          · have hlen : streakLen [y] s = 1 := by
              simp [streakLen, Nat.pos_of_ne_zero hr]
            simp [hr, hlen]
        simp only [activeStreaks, List.orderedInsert]
        rw [h1]
        rfl

/-- Witness for C9: the empty matrix is rejected at construction, and on a
concrete single-year matrix all three analyses raise. -/
theorem analyzer_preconditions_witness :
    analyzerInit ([] : List SongRow) [2018] =
      Except.error "DataFrame cannot be empty" ∧
    (oneYearDreamRuns ⟨[2018], [songC]⟩ =
        Except.error "KeyError: dream_year" ∧
      onTheUp ⟨[2018], [songC]⟩ = Except.error "KeyError: recovery_year" ∧
      activeStreaks 3 ⟨[2018], [songC]⟩ =
        Except.error "KeyError: streak_length") :=
  ⟨(analyzer_preconditions [] [2018]).1 rfl,
    (analyzer_preconditions [songC] [2018]).2 2018 ⟨[2018], [songC]⟩ rfl⟩

/-!
## Specification-side analyzer descriptions

The following `spec…` definitions transcribe the specification's wording for
the three scan analyses (first-qualifying-transition semantics); the claims
are settled by proving the code embeddings equal to them.
-/

/-- The spec's dream-run transition: rank within `[1, 10]` in year `y` and
absent (`0`) in year `y+1`. -/
def qualifiesDream (s : SongRow) (p : Nat × Nat) : Bool :=
  decide (1 ≤ rankIn s p.1) && decide (rankIn s p.1 ≤ 10) &&
    decide (rankIn s p.2 = 0)

/-- Spec `one_year_dream_runs`, per song: the *first* qualifying transition
(`find?` over ascending consecutive year pairs) wins; a song with none is
excluded (`none`). -/
def specDream (years : List Nat) (s : SongRow) : Option DreamRec :=
  ((yearPairs years).find? (qualifiesDream s)).map
    (fun p => mkDreamRec s (p.1, rankIn s p.1))

/-- Spec `one_year_dream_runs`: at most one record per song, sorted by
`dream_year` descending. -/
def specOneYearDreamRuns (years : List Nat) (songs : List SongRow) :
    List DreamRec :=
  List.insertionSort (descBy DreamRec.dream_year) (songs.filterMap (specDream years))

/-- The dream-run scan stops at the first qualifying pair: it is `find?` over
the pair list. -/
theorem dreamScan_eq_find? (s : SongRow) (ps : List (Nat × Nat)) :
    dreamScan s ps =
      (ps.find? (qualifiesDream s)).map (fun p => (p.1, rankIn s p.1)) := by
  induction ps with
  | nil => rfl
  | cons p rest ih =>
    by_cases h : 1 ≤ rankIn s p.1 ∧ rankIn s p.1 ≤ 10 ∧ rankIn s p.2 = 0
    · have hq : qualifiesDream s p = true := by
        simp [qualifiesDream, h.1, h.2.1, h.2.2]
      rw [dreamScan, if_pos h, List.find?_cons_of_pos _ hq]
      rfl
    · have hq : ¬qualifiesDream s p = true := by
        simp only [qualifiesDream, Bool.and_eq_true, decide_eq_true_eq]
        intro hc
        exact h ⟨hc.1.1, hc.1.2, hc.2⟩
      rw [dreamScan, if_neg h, List.find?_cons_of_neg _ hq, ih]

/-- A song failing the top-10 prefilter has no qualifying transition, so the
prefilter of `one_year_dream_runs` never changes the result set. -/
theorem specDream_eq_none_of_mask_false (years : List Nat) (s : SongRow)
    (hm : top10Mask years s = false) : specDream years s = none := by
  unfold specDream
  rw [Option.map_eq_none', List.find?_eq_none]
  intro p hp hq
  obtain ⟨a, b⟩ := p
  have ha : a ∈ years := (List.of_mem_zip hp).1
  have := (List.any_eq_false.mp hm) a ha
  simp only [qualifiesDream, Bool.and_eq_true, decide_eq_true_eq] at hq
  simp only [Bool.and_eq_true, decide_eq_true_eq, not_and] at this
  exact this hq.1.1 hq.1.2

/-- Dropping a prefilter whose failures produce no record anyway. -/
theorem filterMap_filter_eliminable (m : α → Bool) (f : α → Option β)
    (h : ∀ s, m s = false → f s = none) (l : List α) :
    (l.filter m).filterMap f = l.filterMap f := by
  induction l with
  | nil => rfl
  | cons x xs ih =>
    cases hm : m x
    · simp [List.filter_cons, hm, List.filterMap_cons, h x hm, ih]
    · simp [List.filter_cons, hm, List.filterMap_cons, ih]

/-- C5: whenever `one_year_dream_runs` returns a table, that table is exactly
the spec's: per song, at most one record, at the first ascending-year
transition with rank in `[1, 10]` followed by absence, recording
`dream_year` and `rank_in_dream_year`; songs with no such transition are
excluded, and the table is sorted by `dream_year` descending. -/
theorem oneYearDreamRuns_spec (a : Analyzer) (out : List DreamRec)
    (h : oneYearDreamRuns a = Except.ok out) :
    out = specOneYearDreamRuns a.years a.songs ∧
    List.Sorted (descBy DreamRec.dream_year) out := by
  have hfun : (fun s => (dreamScan s (yearPairs a.years)).map (mkDreamRec s)) =
      specDream a.years := by
    funext s
    rw [dreamScan_eq_find?, Option.map_map]
    rfl
  unfold oneYearDreamRuns sortDescOr at h
  rw [hfun] at h
  dsimp only at h
  split at h
  · cases h
  · obtain rfl : _ = out := congrArg (fun e => match e with
      | Except.ok v => v
      | Except.error _ => []) h
    refine ⟨?_, List.sorted_insertionSort _ _⟩
    unfold specOneYearDreamRuns
    rw [filterMap_filter_eliminable _ _
      (specDream_eq_none_of_mask_false a.years)]

/-- Witness for C5 at the spec's Song A scenario (rank 3 in 2018, absent in
2019): a single record with `dream_year = 2018`, `rank = 3`, matching the
spec-side table. -/
theorem oneYearDreamRuns_spec_witness :
    oneYearDreamRuns ⟨[2018, 2019, 2020], [songA]⟩ =
      Except.ok [mkDreamRec songA (2018, 3)] ∧
    ([mkDreamRec songA (2018, 3)] =
        specOneYearDreamRuns [2018, 2019, 2020] [songA] ∧
      List.Sorted (descBy DreamRec.dream_year) [mkDreamRec songA (2018, 3)]) :=
  ⟨rfl, oneYearDreamRuns_spec ⟨[2018, 2019, 2020], [songA]⟩ _ rfl⟩

/-- The spec's sticky `off_list` flag before the emit check at pair `i`:
an initial value `off0` or some present-then-absent transition among the
pairs up to and including `i`. -/
def stickyOff (s : SongRow) (off0 : Bool) (ps : List (Nat × Nat)) (i : Nat) :
    Bool :=
  off0 || (ps.take (i + 1)).any (transAt s)

/-- The spec's emit condition at pair `i`: next rank positive and (rank
number decreased, or the sticky flag is set). -/
def qualAt (s : SongRow) (off0 : Bool) (ps : List (Nat × Nat)) (i : Nat) :
    Bool :=
  decide (0 < rankIn s (ps.getD i (0, 0)).2) &&
    (decide (rankIn s (ps.getD i (0, 0)).2 < rankIn s (ps.getD i (0, 0)).1) ||
      stickyOff s off0 ps i)

/-- Spec `on_the_up`, per song, from initial flag `off0`: the record of the
*first* qualifying pair (`find?` over pair positions), with
`recovery_type = "returned"` iff the sticky flag is set there and
`recovery_year` the later year of the pair. -/
def specUpFrom (s : SongRow) (off0 : Bool) (ps : List (Nat × Nat)) :
    Option UpRec :=
  ((List.range ps.length).find? (qualAt s off0 ps)).map
    (fun i => mkUpRec s (stickyOff s off0 ps i) (ps.getD i (0, 0)))

/-- Spec `on_the_up`, per song (the scan starts with the flag unset). -/
def specUp (s : SongRow) (ps : List (Nat × Nat)) : Option UpRec :=
  specUpFrom s false ps

theorem stickyOff_cons_zero (s : SongRow) (off0 : Bool) (p : Nat × Nat)
    (rest : List (Nat × Nat)) :
    stickyOff s off0 (p :: rest) 0 = (off0 || transAt s p) := by
  simp [stickyOff]

theorem stickyOff_cons_succ (s : SongRow) (off0 : Bool) (p : Nat × Nat)
    (rest : List (Nat × Nat)) (i : Nat) :
    stickyOff s off0 (p :: rest) (i + 1) =
      stickyOff s (off0 || transAt s p) rest i := by
  simp [stickyOff, List.take_succ_cons, Bool.or_assoc]

theorem qualAt_cons_zero (s : SongRow) (off0 : Bool) (p : Nat × Nat)
    (rest : List (Nat × Nat)) :
    qualAt s off0 (p :: rest) 0 =
      (decide (0 < rankIn s p.2) &&
        (decide (rankIn s p.2 < rankIn s p.1) || (off0 || transAt s p))) := by
  simp [qualAt, stickyOff_cons_zero]

theorem qualAt_cons_succ (s : SongRow) (off0 : Bool) (p : Nat × Nat)
    (rest : List (Nat × Nat)) (i : Nat) :
    qualAt s off0 (p :: rest) (i + 1) =
      qualAt s (off0 || transAt s p) rest i := by
  simp [qualAt, stickyOff_cons_succ]

/-- The accumulator scan of `on_the_up` computes the spec's
first-qualifying-pair description, for every initial flag value. -/
theorem upScan_eq_specUpFrom (s : SongRow) (ps : List (Nat × Nat)) :
    ∀ off0 : Bool, upScan s off0 ps = specUpFrom s off0 ps := by
  induction ps with
  | nil => intro off0; rfl
  | cons p rest ih =>
    intro off0
    simp only [upScan]
    by_cases h : 0 < rankIn s p.2 ∧
        (rankIn s p.2 < rankIn s p.1 ∨ (off0 || transAt s p) = true)
    · rw [if_pos h]
      have hq : qualAt s off0 (p :: rest) 0 = true := by
        rw [qualAt_cons_zero]
        rcases h with ⟨h1, h2 | h2⟩
        · simp [h1, h2]
        · simp [h1, h2]
      unfold specUpFrom
      rw [List.length_cons, List.range_succ_eq_map,
        List.find?_cons_of_pos _ hq, Option.map_some']
      rw [show ((p :: rest).getD 0 (0, 0)) = p from rfl, stickyOff_cons_zero]
    · rw [if_neg h]
      have hq : ¬qualAt s off0 (p :: rest) 0 = true := by
        rw [qualAt_cons_zero]
        simp only [Bool.and_eq_true, Bool.or_eq_true, decide_eq_true_eq]
        intro hc
        exact h ⟨hc.1, hc.2.imp id (fun ho => by
          rcases ho with ho | ho <;> simp [ho])⟩
      unfold specUpFrom
      rw [List.length_cons, List.range_succ_eq_map,
        List.find?_cons_of_neg _ hq, List.find?_map, Option.map_map,
        ih (off0 || transAt s p)]
      have hP : (qualAt s off0 (p :: rest)) ∘ Nat.succ =
          qualAt s (off0 || transAt s p) rest := by
        funext i
        exact qualAt_cons_succ s off0 p rest i
      have hF : ((fun i => mkUpRec s (stickyOff s off0 (p :: rest) i)
            ((p :: rest).getD i (0, 0))) ∘ Nat.succ) =
          fun i => mkUpRec s (stickyOff s (off0 || transAt s p) rest i)
            (rest.getD i (0, 0)) := by
        funext i
        simp only [Function.comp_apply, stickyOff_cons_succ,
          List.getD_cons_succ]
      rw [hP, hF]
      rfl

/-- C4: whenever `on_the_up` returns a table, it contains exactly, for each
song with `list_appearances >= 2`, the record of the first consecutive-year
pair where the next rank is positive and (the rank number decreased or the
sticky `off_list` flag is set), with `recovery_type` `"returned"` iff the
flag is set there and `recovery_year` the later year of the pair. -/
theorem onTheUp_spec (a : Analyzer) (out : List UpRec)
    (h : onTheUp a = Except.ok out) :
    out = List.insertionSort (descBy UpRec.recovery_year)
        ((a.songs.filter (fun s => decide (2 ≤ s.list_appearances))).filterMap
          (fun s => specUp s (yearPairs a.years))) ∧
    List.Sorted (descBy UpRec.recovery_year) out := by
  have hfun : (fun s => upScan s false (yearPairs a.years)) =
      (fun s => specUp s (yearPairs a.years)) :=
    funext fun s => upScan_eq_specUpFrom s _ false
  unfold onTheUp sortDescOr at h
  rw [hfun] at h
  dsimp only at h
  split at h
  · cases h
  · obtain rfl : _ = out := congrArg (fun e => match e with
      | Except.ok v => v
      | Except.error _ => []) h
    exact ⟨rfl, List.sorted_insertionSort _ _⟩

/-- Witness for C4 at the spec's Song B scenario (rank 50 in 2018, absent in
2019, rank 20 in 2020): one record, `recovery_type = "returned"`,
`recovery_year = 2020`. -/
theorem onTheUp_spec_witness :
    onTheUp ⟨[2018, 2019, 2020], [songB]⟩ =
      Except.ok [mkUpRec songB true (2019, 2020)] ∧
    (mkUpRec songB true (2019, 2020)).recovery_type = "returned" ∧
    (mkUpRec songB true (2019, 2020)).recovery_year = 2020 ∧
    ([mkUpRec songB true (2019, 2020)] =
        List.insertionSort (descBy UpRec.recovery_year)
          (([songB].filter (fun s => decide (2 ≤ s.list_appearances))).filterMap
            (fun s => specUp s (yearPairs [2018, 2019, 2020]))) ∧
      List.Sorted (descBy UpRec.recovery_year)
        [mkUpRec songB true (2019, 2020)]) :=
  ⟨rfl, rfl, rfl, onTheUp_spec ⟨[2018, 2019, 2020], [songB]⟩ _ rfl⟩

/-- Positional default indexing is head-of-drop. -/
theorem getD_eq_headD_drop (l : List Nat) (i : Nat) :
    l.getD i 0 = (l.drop i).headD 0 := by
  induction l generalizing i with
  | nil => cases i <;> rfl
  | cons x xs ih =>
    cases i with
    | zero => rfl
    | succ j => exact ih j

/-- Spec `active_streaks`, per song: a record exactly when the song is present
in the final year and the backward-consecutive presence count reaches
`minc`; the record carries the count and the first year of the run (the head
of the run's year suffix). -/
def specStreak (minc : Nat) (years : List Nat) (s : SongRow) :
    Option StreakRec :=
  if 0 < rankIn s (years.getLastD 0) ∧ minc ≤ streakLen years s then
    some ⟨s.name, s.artists, s.song_id, s.list_appearances, s.score,
      streakLen years s,
      (years.drop (years.length - streakLen years s)).headD 0⟩
  else none

/-- C6: whenever `active_streaks(min_consecutive)` returns a table, it
contains exactly one record per song that is present in the final year with a
backward-consecutive run of at least `min_consecutive` years, carrying the
run length and its first year, sorted by `streak_length` descending. -/
theorem activeStreaks_spec (minc : Nat) (a : Analyzer) (out : List StreakRec)
    (h : activeStreaks minc a = Except.ok out) :
    out = List.insertionSort (descBy StreakRec.streak_length)
        (a.songs.filterMap (specStreak minc a.years)) ∧
    List.Sorted (descBy StreakRec.streak_length) out := by
  have hfun : (fun s =>
      if rankIn s (a.years.getLastD 0) = 0 then none
      else
        let len := streakLen a.years s
        if minc ≤ len then
          some (⟨s.name, s.artists, s.song_id, s.list_appearances, s.score,
            len, a.years.getD (a.years.length - len) 0⟩ : StreakRec)
        else none) = specStreak minc a.years := by
    funext s
    unfold specStreak
    by_cases hr : rankIn s (a.years.getLastD 0) = 0
    · rw [if_pos hr, if_neg]
      intro hc
      omega
    · have hpos : 0 < rankIn s (a.years.getLastD 0) := Nat.pos_of_ne_zero hr
      rw [if_neg hr]
      dsimp only
      by_cases hm : minc ≤ streakLen a.years s
      · rw [if_pos hm, if_pos ⟨hpos, hm⟩, getD_eq_headD_drop]
      · rw [if_neg hm, if_neg]
        intro hc
        exact hm hc.2
  unfold activeStreaks sortDescOr at h
  rw [hfun] at h
  dsimp only at h
  split at h
  · cases h
  · obtain rfl : _ = out := congrArg (fun e => match e with
      | Except.ok v => v
      | Except.error _ => []) h
    exact ⟨rfl, List.sorted_insertionSort _ _⟩

/-- Witness for C6 at the spec's Song C scenario (rank 5 in each of 2018,
2019, 2020): one record with `streak_length = 3`, `streak_start_year = 2018`. -/
theorem activeStreaks_spec_witness :
    activeStreaks 3 ⟨[2018, 2019, 2020], [songC]⟩ =
      Except.ok [⟨songC.name, songC.artists, songC.song_id,
        songC.list_appearances, songC.score, 3, 2018⟩] ∧
    ([(⟨songC.name, songC.artists, songC.song_id, songC.list_appearances,
        songC.score, 3, 2018⟩ : StreakRec)] =
        List.insertionSort (descBy StreakRec.streak_length)
          ([songC].filterMap (specStreak 3 [2018, 2019, 2020])) ∧
      List.Sorted (descBy StreakRec.streak_length)
        [(⟨songC.name, songC.artists, songC.song_id, songC.list_appearances,
          songC.score, 3, 2018⟩ : StreakRec)]) :=
  ⟨rfl, activeStreaks_spec 3 ⟨[2018, 2019, 2020], [songC]⟩ _ rfl⟩

end Wrapped
